import Mathlib

/-!
Shallow embedding of shred.c (willgreen946/shred).

The program overwrites a regular file in place: getblocks computes a
block plan (blocks, block_len) from the file length and the RLIMIT_DATA
soft limit, readin obtains a block of bytes from /dev/urandom, doshred
runs the multi-pass overwrite loop, and fileshred opens the file, probes
its length and drives doshred.

Operating-system interactions (malloc, open, read, write, lseek,
getrlimit) are modelled by explicit outcome parameters: each call site
receives the outcome the kernel would produce, and the embedding
computes the resulting file contents and return values exactly as the C
code does.  File bytes are natural numbers below 256; nothing in the
program inspects byte values, so no modular arithmetic is needed.
-/

namespace Shred

/-- Mirror of struct shred_opts (shred.c lines 41 to 48).  blocks and
block_len are the block plan computed by getblocks; safe, verbose,
recursive and interations are the configuration fields set in main from
the DEF_ constants (shred.c lines 34 to 39 and 66 to 70). -/
structure shred_opts where
  blocks : Nat
  block_len : Nat
  safe : Bool
  verbose : Bool
  recursive : Bool
  interations : Nat
deriving Repr, DecidableEq

/-- Mirror of getblocks (shred.c lines 218 to 267).  The C function first
sets blocks = len and block_len = 1, then, when safe is unset, queries
getrlimit(RLIMIT_DATA).  The parameter rl models that query: none means
the call failed, some B means it returned soft limit B.  On query failure
the C code sets safe = 1 and keeps the one-byte plan.  On success it
computes blocks = rl.rlim_cur / len + 1 and block_len = len / blocks; the
division rl.rlim_cur / len is a size_t division whose divisor is the file
length, so for len = 0 it is a division by zero, which crashes the
process (modelled as none).  A computed block_len of 0 collapses the plan
to a single block of the whole file. -/
def getblocks (opts : shred_opts) (len : Nat) (rl : Option Nat) : Option shred_opts :=
  if opts.safe then
    some { opts with blocks := len, block_len := 1 }
  else
    match rl with
    | none => some { opts with safe := true, blocks := len, block_len := 1 }
    | some B =>
        if len = 0 then none
        else
          let nb := B / len + 1
          let nl := len / nb
          if nl = 0 then some { opts with blocks := 1, block_len := len }
          else some { opts with blocks := nb, block_len := nl }

/-- Outcomes of the system calls made by one invocation of readin
(shred.c lines 309 to 343): whether malloc succeeds, the uninitialized
contents of the allocation, whether open("/dev/urandom") succeeds, the
return value of read, and the bytes the device would deliver. -/
structure ReadinSpec where
  mallocOk : Bool
  junk : List Nat
  openOk : Bool
  readRes : Int
  dev : List Nat
deriving Repr, DecidableEq

/-- Helper giving the contents of a malloc(len) allocation: the first len
bytes of the junk the allocator hands back, padded to exactly len. -/
def padTo (len : Nat) (l : List Nat) : List Nat :=
  l.take len ++ List.replicate (len - l.length) 0

/-- Mirror of readin (shred.c lines 309 to 343).  Returns none exactly
when malloc fails.  When open fails, or read returns a negative value,
the C code jumps to the fail label, which prints a diagnostic, closes the
descriptor if one was opened, and returns buf: the non-null allocation,
still holding uninitialized junk.  A short read (read returning fewer
than len bytes but at least 0) is not checked at all; the buffer keeps
junk past the bytes actually read. -/
def readin (sp : ReadinSpec) (len : Nat) : Option (List Nat) :=
  if sp.mallocOk = false then none
  else
    let buf := padTo len sp.junk
    if sp.openOk = false then some buf
    else if sp.readRes < 0 then some buf
    else
      let n := min sp.readRes.toNat len
      some (padTo len ((sp.dev.take n) ++ buf.drop n))

/-- Contents and read-write position of the target file. -/
structure FileState where
  data : List Nat
  pos : Nat
deriving Repr, DecidableEq

/-- Model of the write system call on the target descriptor.  buf = none
models a null source pointer: a write from the null page faults (EFAULT),
writes nothing, and returns minus one (a zero-length write succeeds
vacuously).  ok models external write failure (for a present buffer):
when false the call writes nothing and returns minus one.  A successful
write stores count bytes from the buffer at the current position and
advances the position. -/
def writeSys (ok : Bool) (buf : Option (List Nat)) (count : Nat) (s : FileState) :
    FileState × Int :=
  match buf with
  | none => (s, if count = 0 then 0 else -1)
  | some b =>
      if ok then
        ({ data := s.data.take s.pos ++ b.take count ++ s.data.drop (s.pos + count),
           pos := s.pos + count }, (count : Int))
      else (s, -1)

/-- Outcomes of all system calls doshred can make: lseekOk i is the
outcome of the lseek to offset 0 at the head of loop i, wrZero i k and
wrRand i k the external outcomes of the two write calls of block k of
loop i, rnd i k the outcomes inside the readin call of that block. -/
structure ShredEnv where
  lseekOk : Nat → Bool
  wrZero : Nat → Nat → Bool
  rnd : Nat → Nat → ReadinSpec
  wrRand : Nat → Nat → Bool

/-- State threaded through the doshred loops: the target file plus
counters of observable events (loop iterations entered, readin calls
made, total bytes actually written by the zero writes and by the random
writes). -/
structure RunState where
  fs : FileState
  loopsRun : Nat
  readinCalls : Nat
  zeroBytes : Nat
  randBytes : Nat
deriving Repr, DecidableEq

/-- Body of the inner block loop of doshred (shred.c lines 190 to 202):
write(fildes, (void *) 0, block_len) - note the null source pointer -
then readin("/dev/urandom", block_len); a null return aborts via goto
fail (the function then returns minus one), otherwise the buffer is
written, scrubbed with memset and freed.  The Bool result is false
exactly when the goto fail path is taken. -/
def runBlock (env : ShredEnv) (i k bl : Nat) (st : RunState) : RunState × Bool :=
  let z := writeSys (env.wrZero i k) none bl st.fs
  let st1 : RunState := { st with fs := z.1, zeroBytes := st.zeroBytes + z.2.toNat }
  match readin (env.rnd i k) bl with
  | none => ({ st1 with readinCalls := st1.readinCalls + 1 }, false)
  | some buf =>
      let w := writeSys (env.wrRand i k) (some buf) bl st1.fs
      ({ st1 with fs := w.1, readinCalls := st1.readinCalls + 1,
                  randBytes := st1.randBytes + w.2.toNat }, true)

/-- The inner for loop of doshred over the remaining blocks, k being the
index of the next block (shred.c lines 190 to 202). -/
def runBlocks (env : ShredEnv) (i bl : Nat) : Nat → Nat → RunState → RunState × Bool
  | 0, _, st => (st, true)
  | rem + 1, k, st =>
      let p := runBlock env i k bl st
      if p.2 then runBlocks env i bl rem (k + 1) p.1 else p

/-- The outer for loop of doshred over the remaining loops, i being the
index of the next loop (shred.c lines 176 to 203).  Each iteration first
calls lseek(fildes, 0, SEEK_SET); on failure the C code only prints a
diagnostic and carries on with the position unchanged. -/
def runLoops (env : ShredEnv) (blocks bl : Nat) : Nat → Nat → RunState → RunState × Bool
  | 0, _, st => (st, true)
  | rem + 1, i, st =>
      let fs1 := if env.lseekOk i then { data := st.fs.data, pos := 0 } else st.fs
      let st1 : RunState := { st with fs := fs1, loopsRun := st.loopsRun + 1 }
      let p := runBlocks env i bl blocks 0 st1
      if p.2 then runLoops env blocks bl rem (i + 1) p.1 else p

/-- Mirror of doshred (shred.c lines 170 to 216): calls getblocks first
(none models the division-by-zero crash), then runs loops iterations of
the zero-write/random-write loop; returns 0 on completing all loops and
minus one when a readin returned null. -/
def doshred (opts : shred_opts) (rl : Option Nat) (env : ShredEnv) (loops len : Nat)
    (fs : FileState) : Option (RunState × Int) :=
  match getblocks opts len rl with
  | none => none
  | some o =>
      let p := runLoops env o.blocks o.block_len loops 0 ⟨fs, 0, 0, 0, 0⟩
      some (p.1, if p.2 then 0 else -1)

/-- Mirror of getfildeslen (shred.c lines 283 to 307): three lseek calls
(save position, seek to end, restore); any failure makes the function
return minus one, modelled as none, otherwise the file length. -/
def getfildeslen (posOk endOk resetOk : Bool) (data : List Nat) : Option Nat :=
  if posOk = false then none
  else if endOk = false then none
  else if resetOk = false then none
  else some data.length

/-- Mirror of fileshred (shred.c lines 109 to 135).  The Bool in the
result records whether close(fildes) was called before returning: the
C code closes the descriptor after doshred (success or failure), but the
early return on a getfildeslen failure (line 121) returns minus one
without closing.  The doshred call passes the literal 3 as the loops
argument (line 126); opts.interations is not consulted.  A doshred crash
(division by zero in getblocks) ends the process, modelled as none. -/
def fileshred (opts : shred_opts) (openOk posOk endOk resetOk : Bool) (rl : Option Nat)
    (env : ShredEnv) (data : List Nat) : Option (Int × Bool × RunState) :=
  let st0 : RunState := ⟨⟨data, 0⟩, 0, 0, 0, 0⟩
  if openOk = false then some (-1, false, st0)
  else
    match getfildeslen posOk endOk resetOk data with
    | none => some (-1, false, st0)
    | some len =>
        match doshred opts rl env 3 len ⟨data, 0⟩ with
        | none => none
        | some (st, r) => if r < 0 then some (-1, true, st) else some (0, true, st)

/-- Configuration with safe mode forced on and the default iteration
count (main sets DEF_ITERATIONS = 3). -/
def optsSafe : shred_opts := ⟨0, 0, true, false, false, 3⟩

/-- Default configuration as set by main: safe off, three iterations. -/
def optsUnsafe : shred_opts := ⟨0, 0, false, false, false, 3⟩

/-- Configuration asking for a single iteration, safe mode on. -/
def optsIter1 : shred_opts := ⟨0, 0, true, false, false, 1⟩

/-- Readin outcomes for a fully successful call: malloc succeeds, the
device opens, read delivers one byte with value 171. -/
def rndOk : ReadinSpec := ⟨true, [0], true, 1, [171]⟩

/-- Readin outcomes where the random device cannot be opened: malloc
succeeds handing back junk byte 170, open fails. -/
def rndOpenFail : ReadinSpec := ⟨true, [170], false, 0, []⟩

/-- Environment where every system call succeeds. -/
def envAllOk : ShredEnv := ⟨fun _ => true, fun _ _ => true, fun _ _ => rndOk, fun _ _ => true⟩

/-- Environment where every open of the random device fails but all
other calls succeed. -/
def envOpenFail : ShredEnv :=
  ⟨fun _ => true, fun _ _ => true, fun _ _ => rndOpenFail, fun _ _ => true⟩

/-- Environment where every lseek and every write on the target fails,
while readin succeeds. -/
def envBad : ShredEnv := ⟨fun _ => false, fun _ _ => false, fun _ _ => rndOk, fun _ _ => false⟩

/-- Final run state of doshred on the one-byte file [5] under envAllOk
with the safe plan and three loops. -/
def stAllOk1 : RunState := ⟨⟨[171], 1⟩, 3, 3, 0, 3⟩

/-- Final run state of doshred on the one-byte file [5] under envBad
with the safe plan and three loops: nothing was written. -/
def stBad1 : RunState := ⟨⟨[5], 0⟩, 3, 3, 0, 0⟩

/-- Predicate: every lseek in the environment succeeds. -/
def allLseekOk (env : ShredEnv) : Prop := ∀ i, env.lseekOk i = true

/-- Predicate: every malloc inside every readin call succeeds, which is
exactly the condition under which readin returns a non-null buffer. -/
def allMallocOk (env : ShredEnv) : Prop := ∀ i k, (env.rnd i k).mallocOk = true

/-- Predicate on a planner result: the plan exists and has a positive
block count, a positive block length, and a positive total coverage not
exceeding the file length. -/
def goodPlan (len : Nat) (r : Option shred_opts) : Prop :=
  match r with
  | none => False
  | some o =>
      1 ≤ o.blocks ∧ 1 ≤ o.block_len ∧
      1 ≤ o.blocks * o.block_len ∧ o.blocks * o.block_len ≤ len

lemma padTo_length (len : Nat) (l : List Nat) : (padTo len l).length = len := by
  simp [padTo, List.length_take]
  omega

lemma readin_length (sp : ReadinSpec) (len : Nat) (b : List Nat)
    (h : readin sp len = some b) : b.length = len := by
  unfold readin at h
  split at h
  · exact absurd h (by simp)
  · split at h
    · obtain rfl := (Option.some_inj.mp h).symm
      exact padTo_length _ _
    · split at h
      · obtain rfl := (Option.some_inj.mp h).symm
        exact padTo_length _ _
      · obtain rfl := (Option.some_inj.mp h).symm
        exact padTo_length _ _

lemma readin_ne_none (sp : ReadinSpec) (len : Nat) (h : sp.mallocOk = true) :
    readin sp len ≠ none := by
  unfold readin
  rw [h]
  simp only [Bool.true_eq_false, if_false]
  split
  · simp
  · split <;> simp

lemma writeSys_fs (ok : Bool) (buf : Option (List Nat)) (count : Nat) (s : FileState)
    (hb : ∀ b, buf = some b → count ≤ b.length)
    (hpos : s.pos + count ≤ s.data.length) :
    (writeSys ok buf count s).1.data.length = s.data.length ∧
    (writeSys ok buf count s).1.pos ≤ s.pos + count := by
  cases buf with
  | none => simp [writeSys]
  | some b =>
      have hcount : count ≤ b.length := hb b rfl
      cases ok with
      | false => simp [writeSys]
      | true =>
          simp [writeSys, List.length_take]
          omega

lemma runBlock_inv (env : ShredEnv) (i k bl : Nat) (st : RunState)
    (h : st.fs.pos + bl ≤ st.fs.data.length) :
    (runBlock env i k bl st).1.fs.data.length = st.fs.data.length ∧
    (runBlock env i k bl st).1.fs.pos ≤ st.fs.pos + bl := by
  unfold runBlock
  cases hr : readin (env.rnd i k) bl with
  | none => simp [writeSys]
  | some buf =>
      have hlen : buf.length = bl := readin_length _ _ _ hr
      have hw := writeSys_fs (env.wrRand i k) (some buf) bl st.fs
        (by intro b hb; cases hb; omega) h
      simpa [writeSys] using hw

lemma runBlock_snd (env : ShredEnv) (i k bl : Nat) (st : RunState)
    (hm : (env.rnd i k).mallocOk = true) :
    (runBlock env i k bl st).2 = true := by
  unfold runBlock
  cases hr : readin (env.rnd i k) bl with
  | none => exact absurd hr (readin_ne_none _ _ hm)
  | some buf => simp

lemma runBlocks_inv (env : ShredEnv) (i bl : Nat) (rem : Nat) :
    ∀ k st, st.fs.pos + rem * bl ≤ st.fs.data.length →
      (runBlocks env i bl rem k st).1.fs.data.length = st.fs.data.length ∧
      (runBlocks env i bl rem k st).1.fs.pos ≤ st.fs.pos + rem * bl := by
  induction rem with
  | zero => intro k st h; simp [runBlocks]
  | succ n ih =>
      intro k st h
      have hmul : (n + 1) * bl = n * bl + bl := Nat.succ_mul n bl
      have hb : st.fs.pos + bl ≤ st.fs.data.length := by omega
      obtain ⟨h1, h2⟩ := runBlock_inv env i k bl st hb
      simp only [runBlocks]
      by_cases hp : (runBlock env i k bl st).2 = true
      · rw [if_pos hp]
        obtain ⟨hA, hB⟩ := ih (k + 1) (runBlock env i k bl st).1 (by omega)
        constructor
        · rw [hA, h1]
        · omega
      · rw [if_neg hp]
        exact ⟨h1, by omega⟩

lemma runBlocks_snd (env : ShredEnv) (i bl : Nat)
    (hm : ∀ a b, (env.rnd a b).mallocOk = true) (rem : Nat) :
    ∀ k st, (runBlocks env i bl rem k st).2 = true := by
  induction rem with
  | zero => intro k st; simp [runBlocks]
  | succ n ih =>
      intro k st
      have hp := runBlock_snd env i k bl st (hm i k)
      simp only [runBlocks, hp, if_pos]
      exact ih (k + 1) _

lemma runLoops_inv (env : ShredEnv) (blocks bl : Nat) (hseek : allLseekOk env) (rem : Nat) :
    ∀ i st, blocks * bl ≤ st.fs.data.length →
      (runLoops env blocks bl rem i st).1.fs.data.length = st.fs.data.length := by
  induction rem with
  | zero => intro i st h; simp [runLoops]
  | succ n ih =>
      intro i st h
      have hl := hseek i
      simp only [runLoops, hl, if_true]
      obtain ⟨hA, _⟩ := runBlocks_inv env i bl blocks 0
        { st with fs := { data := st.fs.data, pos := 0 }, loopsRun := st.loopsRun + 1 }
        (by simpa using h)
      by_cases hp : (runBlocks env i bl blocks 0
          { st with fs := { data := st.fs.data, pos := 0 },
                    loopsRun := st.loopsRun + 1 }).2 = true
      · rw [if_pos hp]
        rw [ih (i + 1) _ (by simpa [hA] using h)]
        simpa using hA
      · rw [if_neg hp]
        simpa using hA

lemma runLoops_snd (env : ShredEnv) (blocks bl : Nat)
    (hm : ∀ a b, (env.rnd a b).mallocOk = true) (rem : Nat) :
    ∀ i st, (runLoops env blocks bl rem i st).2 = true := by
  induction rem with
  | zero => intro i st; simp [runLoops]
  | succ n ih =>
      intro i st
      have hp := runBlocks_snd env i bl hm blocks 0
        { st with fs := if env.lseekOk i then { data := st.fs.data, pos := 0 } else st.fs,
                  loopsRun := st.loopsRun + 1 }
      simp only [runLoops, hp, if_pos]
      exact ih (i + 1) _

lemma getblocks_mul_le (opts : shred_opts) (len : Nat) (rl : Option Nat) (o : shred_opts)
    (h : getblocks opts len rl = some o) : o.blocks * o.block_len ≤ len := by
  unfold getblocks at h
  split at h
  · obtain rfl := (Option.some_inj.mp h).symm
    simp
  · cases rl with
    | none =>
        obtain rfl := (Option.some_inj.mp h).symm
        simp
    | some B =>
        simp only at h
        split at h
        · exact absurd h (by simp)
        · split at h
          · obtain rfl := (Option.some_inj.mp h).symm
            simp
          · obtain rfl := (Option.some_inj.mp h).symm
            simp only
            rw [Nat.mul_comm]
            exact Nat.div_mul_le_self len (B / len + 1)

/-- C1: the claim says a failure to obtain the random buffer (device
cannot be opened, read fails, or short read) aborts the pass, releases
the buffer and propagates the failure.  In the code the fail path of
readin returns the non-null malloc allocation, so the null check in
doshred does not fire: on a one-byte file where every open of
/dev/urandom fails, doshred still makes all 3 readin calls, still writes
3 random-buffer bytes (of uninitialized junk), and returns 0. -/
theorem C1_entropy_failure_not_propagated :
    (doshred optsSafe none envOpenFail 3 1 ⟨[5], 0⟩).map
      (fun p => (p.2, p.1.readinCalls, p.1.randBytes)) = some (0, 3, 3) := by
  decide

/-- C2: the claim says the first sub-step writes block_length zero bytes
per block.  The code passes the null pointer as the source buffer of the
write, so the call faults and writes nothing: on a one-byte file with
the safe plan and three fully successful loops, the zero writes wrote 0
bytes in total and the final file holds the random byte 171, never a
zero. -/
theorem C2_zero_write_writes_nothing :
    (doshred optsSafe none envAllOk 3 1 ⟨[5], 0⟩).map
      (fun p => (p.1.zeroBytes, p.1.fs.data, p.2)) = some (0, [171], 0) := by
  decide

/-- C3: the claim says the pass count equals config.iterations, with
k * block_count random-source calls.  fileshred passes the literal 3 to
doshred, so a configuration with interations = 1 on a two-byte file
still runs 3 loop iterations and makes 6 readin calls instead of 1 and
2. -/
theorem C3_iterations_ignored :
    optsIter1.interations = 1 ∧
    (fileshred optsIter1 true true true true none envAllOk [5, 6]).map
      (fun p => (p.2.2.loopsRun, p.2.2.readinCalls)) = some (3, 6) := by
  decide

/-- C4 counterexample: the claim asserts each sub-phase writes
block_count * block_length bytes.  On a one-byte file with the safe plan
(block_count = 1, block_length = 1) and three fully successful passes,
the three zero sub-phases would have to write 3 * 1 * 1 bytes in total;
they actually write 0, because the zero write is handed a null source
buffer. -/
theorem C4_subphase_bytes_counterexample :
    (doshred optsSafe none envAllOk 3 1 ⟨[5], 0⟩).map (fun p => p.1.zeroBytes) ≠
      some (3 * (1 * 1)) ∧
    (doshred optsSafe none envAllOk 3 1 ⟨[5], 0⟩).map (fun p => p.1.zeroBytes) = some 0 := by
  decide

/-- C4 amended: when every lseek to offset 0 succeeds, shredding never
changes the file length: each pass re-seeks to 0, the zero writes write
nothing, and the random writes cover at most block_count * block_length
bytes, which getblocks keeps at or below the file length. -/
theorem C4_length_invariant (opts : shred_opts) (rl : Option Nat) (env : ShredEnv)
    (loops : Nat) (data : List Nat) (st : RunState) (r : Int)
    (hseek : allLseekOk env)
    (h : doshred opts rl env loops data.length ⟨data, 0⟩ = some (st, r)) :
    st.fs.data.length = data.length := by
  unfold doshred at h
  cases hg : getblocks opts data.length rl with
  | none => rw [hg] at h; cases h
  | some o =>
      rw [hg] at h
      simp only [Option.some_inj, Prod.mk.injEq] at h
      obtain ⟨h1, _⟩ := h
      have hcov := getblocks_mul_le opts data.length rl o hg
      have hinv := runLoops_inv env o.blocks o.block_len hseek loops 0
        ⟨⟨data, 0⟩, 0, 0, 0, 0⟩ (by simpa using hcov)
      rw [← h1]
      simpa using hinv

/-- C4 witness: the amended invariant applied to the one-byte file [5]
under the all-successful environment, three loops, safe plan. -/
theorem C4_length_invariant_witness :
    doshred optsSafe none envAllOk 3 [5].length ⟨[5], 0⟩ = some (stAllOk1, 0) ∧
    stAllOk1.fs.data.length = [5].length :=
  ⟨by decide,
   C4_length_invariant optsSafe none envAllOk 3 [5] stAllOk1 0 (fun _ => rfl) (by decide)⟩

/-- C5: the claim says file_length = 0 induces no division by zero and
yields block_count = 0 for every configuration.  With safe unset and a
successful memory-budget query the code computes rl.rlim_cur / 0, a
division by zero that crashes the process (modelled as none). -/
theorem C5_zero_length_division_by_zero :
    getblocks optsUnsafe 0 (some 1024) = none := by
  decide

/-- C6: the claim says the descriptor is closed on every exit path.  On
the path where open succeeds but the length probe fails, fileshred
returns minus one without calling close: the close flag of the result is
false. -/
theorem C6_fd_not_closed_on_probe_failure :
    (fileshred optsSafe true false true true none envAllOk [5]).map
      (fun p => (p.1, p.2.1)) = some (-1, false) := by
  decide

/-- C7: when safe mode is set, or the memory-budget query fails, the
planner always succeeds and returns the safe plan: block count equal to
the file length and block length 1. -/
theorem C7_safe_plan (opts : shred_opts) (len : Nat) (rl : Option Nat)
    (h : opts.safe = true ∨ rl = none) :
    (getblocks opts len rl).map (fun o => (o.blocks, o.block_len)) = some (len, 1) := by
  rcases h with h | h
  · simp [getblocks, h]
  · subst h
    by_cases hs : opts.safe = true <;> simp [getblocks, hs]

/-- C7 witness: the safe plan for a 7-byte file with safe mode forced
on. -/
theorem C7_safe_plan_witness :
    (getblocks optsSafe 7 (some 5)).map (fun o => (o.blocks, o.block_len)) = some (7, 1) :=
  C7_safe_plan optsSafe 7 (some 5) (Or.inl rfl)

/-- C8: for every file length of at least 1 and every configuration and
memory-budget outcome, the planner succeeds and returns a plan with
block count and block length at least 1 whose coverage is positive and
at most the file length. -/
theorem C8_plan_positive (opts : shred_opts) (len : Nat) (rl : Option Nat)
    (h : 1 ≤ len) : goodPlan len (getblocks opts len rl) := by
  unfold getblocks
  split
  · simp [goodPlan]; omega
  · cases rl with
    | none => simp [goodPlan]; omega
    | some B =>
        simp only
        have hlen : ¬ len = 0 := by omega
        rw [if_neg hlen]
        by_cases hz : len / (B / len + 1) = 0
        · rw [if_pos hz]
          simp [goodPlan]
          omega
        · rw [if_neg hz]
          simp only [goodPlan]
          refine ⟨Nat.le_add_left 1 (B / len), Nat.one_le_iff_ne_zero.mpr hz, ?_, ?_⟩
          · exact Nat.one_le_iff_ne_zero.mpr
              (Nat.mul_ne_zero (Nat.succ_ne_zero (B / len)) hz)
          · rw [Nat.mul_comm]
            exact Nat.div_mul_le_self len (B / len + 1)

/-- C8 witness: a 10-byte file with a 100-byte budget; the computed
block length truncates to 0 and the plan collapses to a single block of
10 bytes. -/
theorem C8_plan_positive_witness : goodPlan 10 (getblocks optsUnsafe 10 (some 100)) :=
  C8_plan_positive optsUnsafe 10 (some 100) (by decide)

/-- C9 counterexample: the claim says no core operation modifies any
configuration field.  When the memory-budget query fails on a
configuration with safe unset, getblocks returns a configuration whose
safe field was changed to true. -/
theorem C9_planner_mutates_config :
    ¬ (∀ (opts : shred_opts) (len : Nat) (rl : Option Nat) (o : shred_opts),
        getblocks opts len rl = some o →
        o.safe = opts.safe ∧ o.verbose = opts.verbose ∧
        o.recursive = opts.recursive ∧ o.interations = opts.interations) := by
  intro hAll
  have h := hAll optsUnsafe 5 none ⟨5, 1, true, false, false, 3⟩ (by decide)
  exact absurd h.1 (by decide)

/-- C9 amended: the planner never modifies verbose, recursive or
interations, and it modifies safe in exactly one case: when safe is
unset and the memory-budget query fails it sets safe to true. -/
theorem C9_config_frame (opts : shred_opts) (len : Nat) (rl : Option Nat) (o : shred_opts)
    (h : getblocks opts len rl = some o) :
    o.verbose = opts.verbose ∧ o.recursive = opts.recursive ∧
    o.interations = opts.interations ∧
    (o.safe = opts.safe ∨ (opts.safe = false ∧ rl = none ∧ o.safe = true)) := by
  unfold getblocks at h
  split at h
  · obtain rfl := (Option.some_inj.mp h).symm
    exact ⟨rfl, rfl, rfl, Or.inl rfl⟩
  · rename_i hs
    have hs' : opts.safe = false := by
      cases hsv : opts.safe
      · rfl
      · exact absurd hsv hs
    cases rl with
    | none =>
        obtain rfl := (Option.some_inj.mp h).symm
        exact ⟨rfl, rfl, rfl, Or.inr ⟨hs', rfl, rfl⟩⟩
    | some B =>
        simp only at h
        split at h
        · exact absurd h (by simp)
        · split at h
          · obtain rfl := (Option.some_inj.mp h).symm
            exact ⟨rfl, rfl, rfl, Or.inl rfl⟩
          · obtain rfl := (Option.some_inj.mp h).symm
            exact ⟨rfl, rfl, rfl, Or.inl rfl⟩

/-- C9 witness: the frame condition applied to the safe-mode
configuration on a 5-byte file with no budget query outcome needed. -/
theorem C9_config_frame_witness :
    (⟨5, 1, true, false, false, 3⟩ : shred_opts).verbose = optsSafe.verbose ∧
    (⟨5, 1, true, false, false, 3⟩ : shred_opts).recursive = optsSafe.recursive ∧
    (⟨5, 1, true, false, false, 3⟩ : shred_opts).interations = optsSafe.interations ∧
    ((⟨5, 1, true, false, false, 3⟩ : shred_opts).safe = optsSafe.safe ∨
      (optsSafe.safe = false ∧ (none : Option Nat) = none ∧
        (⟨5, 1, true, false, false, 3⟩ : shred_opts).safe = true)) :=
  C9_config_frame optsSafe 5 none ⟨5, 1, true, false, false, 3⟩ (by decide)

/-- C10: doshred returns 0 whenever every malloc inside readin succeeds
(which is exactly when every readin returns a non-null buffer), no
matter how the lseek calls, the zero writes and the random writes fare:
their return values are never consulted. -/
theorem C10_write_failures_ignored (opts : shred_opts) (rl : Option Nat) (env : ShredEnv)
    (loops len : Nat) (fs : FileState) (st : RunState) (r : Int)
    (hm : allMallocOk env)
    (h : doshred opts rl env loops len fs = some (st, r)) : r = 0 := by
  unfold doshred at h
  cases hg : getblocks opts len rl with
  | none => rw [hg] at h; cases h
  | some o =>
      rw [hg] at h
      simp only [Option.some_inj, Prod.mk.injEq] at h
      obtain ⟨_, h2⟩ := h
      rw [runLoops_snd env o.blocks o.block_len hm loops 0 ⟨fs, 0, 0, 0, 0⟩] at h2
      simpa using h2.symm

/-- C10 witness: under envBad every lseek and every write on the target
fails, yet doshred on the one-byte file [5] completes all three loops
with result 0 and the file untouched. -/
theorem C10_write_failures_ignored_witness :
    allMallocOk envBad ∧
    doshred optsSafe none envBad 3 1 ⟨[5], 0⟩ = some (stBad1, 0) ∧ (0 : Int) = 0 :=
  ⟨fun _ _ => rfl, by decide,
   C10_write_failures_ignored optsSafe none envBad 3 1 ⟨[5], 0⟩ stBad1 0
     (fun _ _ => rfl) (by decide)⟩

end Shred
